import Mathlib

/-!
Shallow embedding of the rshapes module (2D shape tessellation and
collision queries) and proofs about its behaviour.

Modelling conventions:
* C float quantities are modelled as exact rationals where the code only
  performs field operations and comparisons, and as real numbers where the
  code calls transcendental functions (sqrtf, acosf, cosf, sinf).
* C int casts of floating point values truncate toward zero; this is
  modelled explicitly (cIntCast on rationals, realTrunc on reals).
* The immediate-mode vertex emission of the TRIANGLES draw path (the default
  configuration, SUPPORT_QUADS_DRAW_MODE undefined) is modelled as a list of
  emission events (color changes and 2D vertices).
-/

/-- Two-dimensional vector, from struct RlVector2 (raylib.h). -/
structure RlVector2 where
  x : ℚ
  y : ℚ
deriving DecidableEq, Repr

/-- Axis-aligned rectangle, from struct RlRectangle (raylib.h). -/
structure RlRectangle where
  x : ℚ
  y : ℚ
  width : ℚ
  height : ℚ
deriving DecidableEq, Repr

/-- RGBA color, from struct RlColor (raylib.h). -/
structure RlColor where
  r : ℕ
  g : ℕ
  b : ℕ
  a : ℕ
deriving DecidableEq, Repr

/-- Texture handle, from struct RlTexture2D (raylib.h): id, width, height,
mipmaps, format. -/
structure RlTexture2D where
  id : ℕ
  width : ℤ
  height : ℤ
  mipmaps : ℤ
  format : ℤ
deriving DecidableEq, Repr

/-- A C cast from float to int truncates toward zero. -/
def cIntCast (q : ℚ) : ℤ := if 0 ≤ q then ⌊q⌋ else ⌈q⌉

/-- A C cast from float (here modelled as a real) to int truncates toward
zero. -/
noncomputable def realTrunc (x : ℝ) : ℤ := if 0 ≤ x then ⌊x⌋ else ⌈x⌉

/-! ## Collision Query Engine -/

/-- Check if point is inside rectangle, from RL_CheckCollisionPointRec
(rshapes.c lines 1628-1635). -/
def RL_CheckCollisionPointRec (point : RlVector2) (rec : RlRectangle) : Bool :=
  if (point.x ≥ rec.x) ∧ (point.x < rec.x + rec.width) ∧
     (point.y ≥ rec.y) ∧ (point.y < rec.y + rec.height) then true else false

/-- Check collision between two rectangles, from RL_CheckCollisionRecs
(rshapes.c lines 1687-1695). -/
def RL_CheckCollisionRecs (rec1 rec2 : RlRectangle) : Bool :=
  if (rec1.x < rec2.x + rec2.width) ∧ (rec1.x + rec1.width > rec2.x) ∧
     (rec1.y < rec2.y + rec2.height) ∧ (rec1.y + rec1.height > rec2.y) then true else false

/-- Overlap rectangle of two rectangles, from RL_GetCollisionRec
(rshapes.c lines 1788-1810). -/
def RL_GetCollisionRec (rec1 rec2 : RlRectangle) : RlRectangle :=
  let left := if rec1.x > rec2.x then rec1.x else rec2.x
  let right1 := rec1.x + rec1.width
  let right2 := rec2.x + rec2.width
  let right := if right1 < right2 then right1 else right2
  let top := if rec1.y > rec2.y then rec1.y else rec2.y
  let bottom1 := rec1.y + rec1.height
  let bottom2 := rec2.y + rec2.height
  let bottom := if bottom1 < bottom2 then bottom1 else bottom2
  if (left < right) ∧ (top < bottom) then
    { x := left, y := top, width := right - left, height := bottom - top }
  else { x := 0, y := 0, width := 0, height := 0 }

/-- Denominator shared by the two barycentric coordinates computed in
RL_CheckCollisionPointTriangle (rshapes.c lines 1652-1656). -/
def triDen (p1 p2 p3 : RlVector2) : ℚ :=
  (p2.y - p3.y)*(p1.x - p3.x) + (p3.x - p2.x)*(p1.y - p3.y)

/-- Barycentric coordinate alpha computed in RL_CheckCollisionPointTriangle
(rshapes.c lines 1652-1653). -/
def triAlpha (point p1 p2 p3 : RlVector2) : ℚ :=
  ((p2.y - p3.y)*(point.x - p3.x) + (p3.x - p2.x)*(point.y - p3.y)) / triDen p1 p2 p3

/-- Barycentric coordinate beta computed in RL_CheckCollisionPointTriangle
(rshapes.c lines 1655-1656). -/
def triBeta (point p1 p2 p3 : RlVector2) : ℚ :=
  ((p3.y - p1.y)*(point.x - p3.x) + (p1.x - p3.x)*(point.y - p3.y)) / triDen p1 p2 p3

/-- Barycentric coordinate gamma computed in RL_CheckCollisionPointTriangle
(rshapes.c line 1658). -/
def triGamma (point p1 p2 p3 : RlVector2) : ℚ :=
  1 - triAlpha point p1 p2 p3 - triBeta point p1 p2 p3

/-- Check if point is inside a triangle, from RL_CheckCollisionPointTriangle
(rshapes.c lines 1648-1663). -/
def RL_CheckCollisionPointTriangle (point p1 p2 p3 : RlVector2) : Bool :=
  if (triAlpha point p1 p2 p3 > 0) ∧ (triBeta point p1 p2 p3 > 0) ∧
     (triGamma point p1 p2 p3 > 0) then true else false

/-- The per-edge crossing condition tested inside the loop of
RL_CheckCollisionPointPoly (rshapes.c lines 1678-1679). -/
def polyEdgeCross (point vc vn : RlVector2) : Bool :=
  if (((vc.y ≥ point.y) ∧ (vn.y < point.y)) ∨ ((vc.y < point.y) ∧ (vn.y ≥ point.y))) ∧
     (point.x < (vn.x - vc.x)*(point.y - vc.y)/(vn.y - vc.y) + vc.x) then true else false

/-- Check if point is within a polygon described by an array of vertices,
from RL_CheckCollisionPointPoly (rshapes.c lines 1667-1684).  The C loop
walks i = 0 .. pointCount-2 over the pairs (points[i], points[i+1]); this is
exactly the zip of the list with its tail. -/
def RL_CheckCollisionPointPoly (point : RlVector2) (points : List RlVector2) : Bool :=
  if 2 < points.length then
    (points.zip points.tail).foldl
      (fun collision e => if polyEdgeCross point e.1 e.2 then !collision else collision) false
  else false

/-- Check collision between two circles, from RL_CheckCollisionCircles
(rshapes.c lines 1698-1710).  The distance between the centers is a real
square root, so the predicate lives in Prop over the reals. -/
def RL_CheckCollisionCircles (center1 : RlVector2) (radius1 : ℚ)
    (center2 : RlVector2) (radius2 : ℚ) : Prop :=
  let dx : ℝ := ((center2.x - center1.x : ℚ) : ℝ)
  let dy : ℝ := ((center2.y - center1.y : ℚ) : ℝ)
  Real.sqrt (dx*dx + dy*dy) ≤ ((radius1 : ℝ) + (radius2 : ℝ))

/-- Check if point is inside circle, from RL_CheckCollisionPointCircle
(rshapes.c lines 1638-1645): it delegates to RL_CheckCollisionCircles with a
zero first radius. -/
def RL_CheckCollisionPointCircle (point : RlVector2) (center : RlVector2) (radius : ℚ) : Prop :=
  RL_CheckCollisionCircles point 0 center radius

/-- Check collision between circle and rectangle, from
RL_CheckCollisionCircleRec (rshapes.c lines 1714-1736).  The rectangle
center is truncated to int coordinates by the C casts on lines 1718-1719. -/
def RL_CheckCollisionCircleRec (center : RlVector2) (radius : ℚ) (rec : RlRectangle) : Bool :=
  let recCenterX : ℤ := cIntCast (rec.x + rec.width/2)
  let recCenterY : ℤ := cIntCast (rec.y + rec.height/2)
  let dx : ℚ := |center.x - (recCenterX : ℚ)|
  let dy : ℚ := |center.y - (recCenterY : ℚ)|
  if dx > rec.width/2 + radius then false
  else if dy > rec.height/2 + radius then false
  else if dx ≤ rec.width/2 then true
  else if dy ≤ rec.height/2 then true
  else if (dx - rec.width/2)*(dx - rec.width/2) + (dy - rec.height/2)*(dy - rec.height/2)
            ≤ radius*radius then true
  else false

/-- Modelled from the words of the spec for the circle-rectangle test:
compute the rectangle center (exactly, with no truncation), clamp the
point-to-center delta to the half-extents, and compare the remaining corner
distance squared to the radius squared.  Used to compare the code against
the specified closest-point test. -/
def specCircleRecClosestPoint (center : RlVector2) (radius : ℚ) (rec : RlRectangle) : Bool :=
  let dx : ℚ := |center.x - (rec.x + rec.width/2)|
  let dy : ℚ := |center.y - (rec.y + rec.height/2)|
  if (max 0 (dx - rec.width/2))^2 + (max 0 (dy - rec.height/2))^2 ≤ radius^2 then true
  else false

/-! ## Shape-texture binding state -/

/-- The pair of module-level globals texShapes and texShapesRec
(rshapes.c lines 83-84). -/
structure ShapesTexState where
  texShapes : RlTexture2D
  texShapesRec : RlRectangle
deriving DecidableEq, Repr

/-- Initial value of the globals (rshapes.c lines 83-84): a 1x1 white-pixel
texture with id 1 and format 7, source rectangle 0,0,1,1. -/
def defaultShapesTexState : ShapesTexState :=
  { texShapes := { id := 1, width := 1, height := 1, mipmaps := 1, format := 7 },
    texShapesRec := { x := 0, y := 0, width := 1, height := 1 } }

/-- Set texture and rectangle to be used on shapes drawing, from
SetShapesTexture (rshapes.c lines 98-113), as a state transformer on the
two globals. -/
def SetShapesTexture (texture : RlTexture2D) (source : RlRectangle)
    (_s : ShapesTexState) : ShapesTexState :=
  if (texture.id = 0) ∨ (source.width = 0) ∨ (source.height = 0) then
    defaultShapesTexState
  else { texShapes := texture, texShapesRec := source }

/-- Validity of the shape-texture binding: nonzero texture id and nonzero
source rectangle dimensions. -/
def validShapesBinding (s : ShapesTexState) : Prop :=
  s.texShapes.id ≠ 0 ∧ s.texShapesRec.width ≠ 0 ∧ s.texShapesRec.height ≠ 0

/-! ## Adaptive tessellation engine -/

/-- Degrees-to-radians factor DEG2RAD = PI/180 (raylib.h). -/
noncomputable def DEG2RAD : ℝ := Real.pi / 180

/-- Radius clamp at the top of RL_DrawCircleSector (rshapes.c line 359):
a non-positive radius is replaced by 0.1. -/
def clampRadius (radius : ℚ) : ℚ := if radius ≤ 0 then 1/10 else radius

/-- Angle normalization (rshapes.c lines 362-368): if endAngle < startAngle
the two are swapped, so the arc is always walked low to high. -/
def normAngles (startAngle endAngle : ℚ) : ℚ × ℚ :=
  if endAngle < startAngle then (endAngle, startAngle) else (startAngle, endAngle)

/-- minSegments = ceil((endAngle - startAngle)/90) (rshapes.c line 370). -/
def minSegmentsFor (span : ℚ) : ℤ := ⌈span / 90⌉

/-- Maximum angle between segments derived from the error rate
SMOOTH_CIRCLE_ERROR_RATE = 0.5 (rshapes.c line 375):
th = acos(2*(1 - 0.5/radius)^2 - 1). -/
noncomputable def smoothCircleTh (radius : ℚ) : ℝ :=
  Real.arccos (2*(1 - (1/2 : ℝ)/(radius : ℝ))^2 - 1)

/-- Segment count derived from the error rate (rshapes.c line 376):
segments = (int)((endAngle - startAngle)*ceil(2*PI/th)/360). -/
noncomputable def derivedSegments (radius span : ℚ) : ℤ :=
  realTrunc ((span : ℝ) * ((⌈2*Real.pi/smoothCircleTh radius⌉ : ℤ) : ℝ) / 360)

/-- The segment-count selection of RL_DrawCircleSector (rshapes.c lines
370-379), for an already clamped radius and normalized span: a caller
request below minSegments is replaced by the error-rate derived count,
falling back to minSegments when that count is not positive. -/
noncomputable def sectorSegments (radius span : ℚ) (segments : ℤ) : ℤ :=
  if segments < minSegmentsFor span then
    if derivedSegments radius span ≤ 0 then minSegmentsFor span
    else derivedSegments radius span
  else segments

/-- The segment count actually used by RL_DrawCircleSector after its radius
clamp and angle normalization (rshapes.c lines 357-381). -/
noncomputable def drawCircleSectorSegments (radius startAngle endAngle : ℚ)
    (segments : ℤ) : ℤ :=
  let r := clampRadius radius
  let p := normAngles startAngle endAngle
  sectorSegments r (p.2 - p.1) segments

/-! ## Vertex emission (TRIANGLES path) -/

/-- One immediate-mode emission event: rlColor4ub or rlVertex2f. -/
inductive EmitEvent where
  | color (r g b a : ℕ)
  | vertex (x y : ℝ)

/-- Vertex on the arc of radius r around center at the given angle in
degrees, as computed by the rlVertex2f calls of the sector and ring loops. -/
noncomputable def arcVertex (center : RlVector2) (r : ℚ) (angle : ℝ) : EmitEvent :=
  EmitEvent.vertex ((center.x : ℝ) + Real.cos (DEG2RAD*angle)*(r : ℝ))
                   ((center.y : ℝ) + Real.sin (DEG2RAD*angle)*(r : ℝ))

/-- Draw a piece of a circle, from RL_DrawCircleSector (rshapes.c lines
357-442), TRIANGLES path (lines 429-440): for each segment the loop emits a
color event and the three triangle vertices center, arc(angle+step),
arc(angle). -/
noncomputable def RL_DrawCircleSector (center : RlVector2) (radius startAngle endAngle : ℚ)
    (segments : ℤ) (color : RlColor) : List EmitEvent :=
  let r := clampRadius radius
  let p := normAngles startAngle endAngle
  let segs := sectorSegments r (p.2 - p.1) segments
  let step : ℚ := (p.2 - p.1) / (segs : ℚ)
  (List.range segs.toNat).flatMap (fun i =>
    let angle : ℝ := ((p.1 : ℚ) : ℝ) + (i : ℝ)*(step : ℝ)
    [EmitEvent.color color.r color.g color.b color.a,
     EmitEvent.vertex (center.x : ℝ) (center.y : ℝ),
     arcVertex center r (angle + (step : ℝ)),
     arcVertex center r angle])

/-- Draw a ring, from RL_DrawRing (rshapes.c lines 567-654), TRIANGLES path
(lines 637-652).  An equal start and end angle draws nothing; an inverted
radius pair is swapped (clamping the new outer radius if non-positive); the
segment count is derived with the outer radius; a non-positive inner radius
degenerates to a circle-sector draw. -/
noncomputable def RL_DrawRing (center : RlVector2) (innerRadius outerRadius : ℚ)
    (startAngle endAngle : ℚ) (segments : ℤ) (color : RlColor) : List EmitEvent :=
  if startAngle = endAngle then []
  else
    let rr : ℚ × ℚ :=
      if outerRadius < innerRadius then
        (if innerRadius ≤ 0 then 1/10 else innerRadius, outerRadius)
      else (outerRadius, innerRadius)
    let p := normAngles startAngle endAngle
    let segs := sectorSegments rr.1 (p.2 - p.1) segments
    if rr.2 ≤ 0 then RL_DrawCircleSector center rr.1 p.1 p.2 segs color
    else
      let step : ℚ := (p.2 - p.1) / (segs : ℚ)
      (List.range segs.toNat).flatMap (fun i =>
        let angle : ℝ := ((p.1 : ℚ) : ℝ) + (i : ℝ)*(step : ℝ)
        [EmitEvent.color color.r color.g color.b color.a,
         arcVertex center rr.2 angle,
         arcVertex center rr.2 (angle + (step : ℝ)),
         arcVertex center rr.1 angle,
         arcVertex center rr.2 (angle + (step : ℝ)),
         arcVertex center rr.1 (angle + (step : ℝ)),
         arcVertex center rr.1 angle])

/-! ## Curve flattener (quadratic bezier) -/

/-- BEZIER_LINE_DIVISIONS = 24 (rshapes.c line 71). -/
def BEZIER_LINE_DIVISIONS : ℕ := 24

/-- Point of the quadratic bezier at parameter t, as computed inside the
loop of RL_DrawLineBezierQuad (rshapes.c lines 256-263):
a = (1-t)^2, b = 2(1-t)t, c = t^2. -/
def bezierQuadPoint (startPos endPos controlPos : RlVector2) (t : ℚ) : ℚ × ℚ :=
  let a := (1 - t)^2
  let b := 2*(1 - t)*t
  let c := t^2
  (a*startPos.x + b*controlPos.x + c*endPos.x,
   a*startPos.y + b*controlPos.y + c*endPos.y)

/-- Chord (dx, dy) of iteration i of RL_DrawLineBezierQuad (rshapes.c lines
265-266): current minus previous sample, where the sample at parameter 0 is
exactly the start position. -/
def bezierQuadChord (startPos endPos controlPos : RlVector2) (i : ℕ) : ℚ × ℚ :=
  let cur := bezierQuadPoint startPos endPos controlPos ((i : ℚ)/24)
  let prev := bezierQuadPoint startPos endPos controlPos (((i : ℚ) - 1)/24)
  (cur.1 - prev.1, cur.2 - prev.2)

/-- Rim half-thickness scale of iteration i (rshapes.c line 267):
size = 0.5*thick/sqrt(dx*dx + dy*dy). -/
noncomputable def bezierQuadSize (startPos endPos controlPos : RlVector2)
    (thick : ℚ) (i : ℕ) : ℝ :=
  let d := bezierQuadChord startPos endPos controlPos i
  (1/2 : ℝ)*(thick : ℝ)/Real.sqrt ((d.1 : ℝ)*(d.1 : ℝ) + (d.2 : ℝ)*(d.2 : ℝ))

/-- Final contents of the points array filled by RL_DrawLineBezierQuad
(rshapes.c lines 252-283): indices 0 and 1 hold the two rim points seeded at
the start position using the first chord (lines 269-275); for i = 1..24,
index 2i holds current + (dy, -dx)*size and index 2i+1 holds
current - (dy, -dx)*size (lines 277-280). -/
noncomputable def bezierQuadStripPoint (startPos endPos controlPos : RlVector2)
    (thick : ℚ) (idx : ℕ) : ℝ × ℝ :=
  let i := if idx ≤ 1 then 1 else idx/2
  let base : ℚ × ℚ :=
    if idx ≤ 1 then (startPos.x, startPos.y)
    else bezierQuadPoint startPos endPos controlPos ((i : ℚ)/24)
  let d := bezierQuadChord startPos endPos controlPos i
  let size := bezierQuadSize startPos endPos controlPos thick i
  if idx % 2 = 0 then ((base.1 : ℝ) + (d.2 : ℝ)*size, (base.2 : ℝ) - (d.1 : ℝ)*size)
  else ((base.1 : ℝ) - (d.2 : ℝ)*size, (base.2 : ℝ) + (d.1 : ℝ)*size)

/-- Draw line using quadratic bezier curves with a control point, from
RL_DrawLineBezierQuad (rshapes.c lines 244-286): the point strip handed to
RL_DrawTriangleStrip, of 2*BEZIER_LINE_DIVISIONS + 2 points. -/
noncomputable def RL_DrawLineBezierQuad (startPos endPos controlPos : RlVector2)
    (thick : ℚ) : List (ℝ × ℝ) :=
  (List.range (2*BEZIER_LINE_DIVISIONS + 2)).map
    (bezierQuadStripPoint startPos endPos controlPos thick)

/-! ## Helper lemmas -/

/-- Any output state of SetShapesTexture is a valid binding. -/
theorem setShapesTexture_valid (texture : RlTexture2D) (source : RlRectangle)
    (s : ShapesTexState) : validShapesBinding (SetShapesTexture texture source s) := by
  unfold SetShapesTexture validShapesBinding defaultShapesTexState
  split_ifs with h
  · refine ⟨by simp, by simp, by simp⟩
  · push_neg at h
    exact ⟨h.1, h.2.1, h.2.2⟩

/-- Folding SetShapesTexture over any call list preserves binding validity. -/
theorem foldl_setShapesTexture_valid (calls : List (RlTexture2D × RlRectangle))
    (s : ShapesTexState) (hs : validShapesBinding s) :
    validShapesBinding (calls.foldl (fun st c => SetShapesTexture c.1 c.2 st) s) := by
  induction calls generalizing s with
  | nil => exact hs
  | cons c cs ih => exact ih _ (setShapesTexture_valid c.1 c.2 s)

/-! ## Claim theorems -/

/-- C10: RL_CheckCollisionPointRec is half-open containment: the left and
top edges of the rectangle are inclusive and the right and bottom edges are
exclusive. -/
theorem C10_pointRec_halfOpen (p : RlVector2) (rec : RlRectangle) :
    RL_CheckCollisionPointRec p rec = true ↔
      (rec.x ≤ p.x ∧ p.x < rec.x + rec.width ∧ rec.y ≤ p.y ∧ p.y < rec.y + rec.height) := by
  unfold RL_CheckCollisionPointRec
  simp [ge_iff_le]

/-- C8: RL_CheckCollisionPointCircle returns exactly
RL_CheckCollisionCircles with a zero first radius, and both unfold to the
center distance being at most the circle radius. -/
theorem C8_pointCircle_eq_circles (p c : RlVector2) (r : ℚ) :
    (RL_CheckCollisionPointCircle p c r ↔ RL_CheckCollisionCircles p 0 c r) ∧
    (RL_CheckCollisionPointCircle p c r ↔
      Real.sqrt (((c.x - p.x : ℚ) : ℝ)*((c.x - p.x : ℚ) : ℝ) +
                 ((c.y - p.y : ℚ) : ℝ)*((c.y - p.y : ℚ) : ℝ)) ≤ ((r : ℚ) : ℝ)) := by
  constructor
  · exact Iff.rfl
  · unfold RL_CheckCollisionPointCircle RL_CheckCollisionCircles
    rw [show ((0 : ℚ) : ℝ) + (r : ℝ) = (r : ℝ) by push_cast; ring]

/-- C9: SetShapesTexture resets the binding to the default 1x1 white-pixel
texture with source rect 0,0,1,1 whenever the texture id or a source
dimension is zero, stores the supplied pair otherwise, and consequently the
binding stays valid (nonzero id and nonzero source dimensions) after any
sequence of calls starting from the default state. -/
theorem C9_setShapesTexture_invariant (texture : RlTexture2D) (source : RlRectangle)
    (s : ShapesTexState) :
    ((texture.id = 0 ∨ source.width = 0 ∨ source.height = 0) →
        SetShapesTexture texture source s = defaultShapesTexState) ∧
    (texture.id ≠ 0 → source.width ≠ 0 → source.height ≠ 0 →
        SetShapesTexture texture source s =
          { texShapes := texture, texShapesRec := source }) ∧
    (∀ calls : List (RlTexture2D × RlRectangle),
        validShapesBinding
          (calls.foldl (fun st c => SetShapesTexture c.1 c.2 st) defaultShapesTexState)) := by
  refine ⟨fun h => ?_, fun h1 h2 h3 => ?_, fun calls => ?_⟩
  · unfold SetShapesTexture
    exact if_pos h
  · unfold SetShapesTexture
    exact if_neg (by tauto)
  · refine foldl_setShapesTexture_valid calls _ ?_
    unfold validShapesBinding defaultShapesTexState
    refine ⟨by simp, by simp, by simp⟩

/-- Witness for C9: a zero-id call resets to the default binding and a
valid call stores its arguments. -/
theorem C9_witness :
    SetShapesTexture ⟨0, 4, 4, 1, 7⟩ ⟨0, 0, 4, 4⟩ defaultShapesTexState
        = defaultShapesTexState ∧
    SetShapesTexture ⟨5, 4, 4, 1, 7⟩ ⟨0, 0, 4, 4⟩ defaultShapesTexState
        = { texShapes := ⟨5, 4, 4, 1, 7⟩, texShapesRec := ⟨0, 0, 4, 4⟩ } :=
  ⟨(C9_setShapesTexture_invariant ⟨0, 4, 4, 1, 7⟩ ⟨0, 0, 4, 4⟩ defaultShapesTexState).1
      (Or.inl rfl),
   (C9_setShapesTexture_invariant ⟨5, 4, 4, 1, 7⟩ ⟨0, 0, 4, 4⟩ defaultShapesTexState).2.1
      (by simp) (by simp) (by simp)⟩

/-- C6: RL_CheckCollisionPointTriangle returns true iff the three
barycentric coordinates it computes are all strictly positive; for a
non-degenerate triangle those coordinates really are the barycentric
coordinates of the query point (they sum to 1 and reconstruct the point),
and a point with any coordinate equal to zero (a point on an edge) is
reported as not colliding. -/
theorem C6_pointTriangle_barycentric (point p1 p2 p3 : RlVector2)
    (hden : triDen p1 p2 p3 ≠ 0) :
    (RL_CheckCollisionPointTriangle point p1 p2 p3 = true ↔
      (0 < triAlpha point p1 p2 p3 ∧ 0 < triBeta point p1 p2 p3 ∧
       0 < triGamma point p1 p2 p3)) ∧
    (triAlpha point p1 p2 p3 + triBeta point p1 p2 p3 + triGamma point p1 p2 p3 = 1) ∧
    (triAlpha point p1 p2 p3 * p1.x + triBeta point p1 p2 p3 * p2.x +
       triGamma point p1 p2 p3 * p3.x = point.x) ∧
    (triAlpha point p1 p2 p3 * p1.y + triBeta point p1 p2 p3 * p2.y +
       triGamma point p1 p2 p3 * p3.y = point.y) ∧
    ((triAlpha point p1 p2 p3 = 0 ∨ triBeta point p1 p2 p3 = 0 ∨
        triGamma point p1 p2 p3 = 0) →
      RL_CheckCollisionPointTriangle point p1 p2 p3 = false) := by
  refine ⟨?_, by unfold triGamma; ring, ?_, ?_, ?_⟩
  · unfold RL_CheckCollisionPointTriangle
    simp
  · unfold triGamma triAlpha triBeta
    field_simp [hden]
    unfold triDen
    ring
  · unfold triGamma triAlpha triBeta
    field_simp [hden]
    unfold triDen
    ring
  · intro h
    unfold RL_CheckCollisionPointTriangle
    rcases h with h | h | h <;> simp [h]

/-- Witness for C6 at the triangle (0,0), (1,0), (0,1) with the interior
query point (1/4, 1/4). -/
theorem C6_witness :
    (RL_CheckCollisionPointTriangle ⟨1/4, 1/4⟩ ⟨0, 0⟩ ⟨1, 0⟩ ⟨0, 1⟩ = true ↔
      (0 < triAlpha ⟨1/4, 1/4⟩ ⟨0, 0⟩ ⟨1, 0⟩ ⟨0, 1⟩ ∧
       0 < triBeta ⟨1/4, 1/4⟩ ⟨0, 0⟩ ⟨1, 0⟩ ⟨0, 1⟩ ∧
       0 < triGamma ⟨1/4, 1/4⟩ ⟨0, 0⟩ ⟨1, 0⟩ ⟨0, 1⟩)) ∧
    (triAlpha ⟨1/4, 1/4⟩ ⟨0, 0⟩ ⟨1, 0⟩ ⟨0, 1⟩ + triBeta ⟨1/4, 1/4⟩ ⟨0, 0⟩ ⟨1, 0⟩ ⟨0, 1⟩ +
       triGamma ⟨1/4, 1/4⟩ ⟨0, 0⟩ ⟨1, 0⟩ ⟨0, 1⟩ = 1) :=
  ⟨(C6_pointTriangle_barycentric ⟨1/4, 1/4⟩ ⟨0, 0⟩ ⟨1, 0⟩ ⟨0, 1⟩ (by simp [triDen])).1,
   (C6_pointTriangle_barycentric ⟨1/4, 1/4⟩ ⟨0, 0⟩ ⟨1, 0⟩ ⟨0, 1⟩ (by simp [triDen])).2.1⟩

/-- Writing the larger of two rationals with the conditional used in
RL_GetCollisionRec as a max. -/
theorem ifGtMax (a b : ℚ) : (if a > b then a else b) = max a b := by
  split_ifs with h
  · exact (max_eq_left h.le).symm
  · exact (max_eq_right (not_lt.mp h)).symm

/-- Writing the smaller of two rationals with the conditional used in
RL_GetCollisionRec as a min. -/
theorem ifLtMin (a b : ℚ) : (if a < b then a else b) = min a b := by
  split_ifs with h
  · exact (min_eq_left h.le).symm
  · exact (min_eq_right (not_lt.mp h)).symm

/-- C2 (amended): for rectangles of positive width and height, the overlap
rectangle of RL_GetCollisionRec has zero area exactly when
RL_CheckCollisionRecs reports no collision. -/
theorem C2_area_zero_iff_no_collision (A B : RlRectangle)
    (hAw : 0 < A.width) (hAh : 0 < A.height) (hBw : 0 < B.width) (hBh : 0 < B.height) :
    ((RL_GetCollisionRec A B).width * (RL_GetCollisionRec A B).height = 0) ↔
      RL_CheckCollisionRecs A B = false := by
  unfold RL_GetCollisionRec RL_CheckCollisionRecs
  simp only [ifGtMax, ifLtMin]
  split_ifs with hov hcol hcol
  · -- nonempty overlap and reported collision: area is positive
    refine iff_of_false ?_ (by simp)
    have h1 : 0 < min (A.x + A.width) (B.x + B.width) - max A.x B.x := sub_pos.mpr hov.1
    have h2 : 0 < min (A.y + A.height) (B.y + B.height) - max A.y B.y := sub_pos.mpr hov.2
    exact ne_of_gt (mul_pos h1 h2)
  · -- nonempty overlap but no reported collision: impossible
    exfalso
    apply hcol
    rcases hov with ⟨h1, h2⟩
    rw [max_lt_iff, lt_min_iff, lt_min_iff] at h1 h2
    exact ⟨h1.1.2, h1.2.1, h2.1.2, h2.2.1⟩
  · -- empty overlap but reported collision: impossible
    exfalso
    apply hov
    rcases hcol with ⟨h1, h2, h3, h4⟩
    constructor
    · rw [max_lt_iff, lt_min_iff, lt_min_iff]
      exact ⟨⟨by linarith, h1⟩, ⟨h2, by linarith⟩⟩
    · rw [max_lt_iff, lt_min_iff, lt_min_iff]
      exact ⟨⟨by linarith, h3⟩, ⟨h4, by linarith⟩⟩
  · -- empty overlap and no reported collision
    simp

/-- Witness for C2 at the overlapping pair of the spec round-trip scenario. -/
theorem C2_witness :
    ((RL_GetCollisionRec ⟨0, 0, 10, 10⟩ ⟨5, 5, 10, 10⟩).width *
        (RL_GetCollisionRec ⟨0, 0, 10, 10⟩ ⟨5, 5, 10, 10⟩).height = 0) ↔
      RL_CheckCollisionRecs ⟨0, 0, 10, 10⟩ ⟨5, 5, 10, 10⟩ = false :=
  C2_area_zero_iff_no_collision ⟨0, 0, 10, 10⟩ ⟨5, 5, 10, 10⟩
    (by simp) (by simp) (by simp) (by simp)

/-- Counterexample for C2 as stated for all rectangles: with the degenerate
rectangle A = (0,0,0,5) and B = (-1,0,2,5), RL_CheckCollisionRecs reports a
collision although the overlap rectangle has zero area. -/
theorem C2_cex :
    ¬ ((((RL_GetCollisionRec ⟨0, 0, 0, 5⟩ ⟨-1, 0, 2, 5⟩).width *
          (RL_GetCollisionRec ⟨0, 0, 0, 5⟩ ⟨-1, 0, 2, 5⟩).height = 0)) ↔
        RL_CheckCollisionRecs ⟨0, 0, 0, 5⟩ ⟨-1, 0, 2, 5⟩ = false) := by
  have h1 : RL_GetCollisionRec ⟨0, 0, 0, 5⟩ ⟨-1, 0, 2, 5⟩ = ⟨0, 0, 0, 0⟩ := by
    unfold RL_GetCollisionRec
    norm_num
  have h2 : RL_CheckCollisionRecs ⟨0, 0, 0, 5⟩ ⟨-1, 0, 2, 5⟩ = true := by
    unfold RL_CheckCollisionRecs
    norm_num
  rw [h1, h2]
  norm_num

/-- C4 (amended): for a nonnegative radius, RL_CheckCollisionCircleRec
returns true exactly when the corner distance squared, measured after
clamping the delta from the circle center to the int-truncated rectangle
center to the half-extents, is at most the radius squared. -/
theorem C4_circleRec_trunc_closestPoint (center : RlVector2) (radius : ℚ)
    (rec : RlRectangle) (hr : 0 ≤ radius) :
    RL_CheckCollisionCircleRec center radius rec = true ↔
      (max 0 (|center.x - (cIntCast (rec.x + rec.width/2) : ℚ)| - rec.width/2))^2 +
      (max 0 (|center.y - (cIntCast (rec.y + rec.height/2) : ℚ)| - rec.height/2))^2
        ≤ radius^2 := by
  unfold RL_CheckCollisionCircleRec
  dsimp only
  set dx : ℚ := |center.x - (cIntCast (rec.x + rec.width/2) : ℚ)| with hdxd
  set dy : ℚ := |center.y - (cIntCast (rec.y + rec.height/2) : ℚ)| with hdyd
  have hmx0 : (0:ℚ) ≤ max 0 (dx - rec.width/2) := le_max_left 0 _
  have hmy0 : (0:ℚ) ≤ max 0 (dy - rec.height/2) := le_max_left 0 _
  have hmx1 : dx - rec.width/2 ≤ max 0 (dx - rec.width/2) := le_max_right 0 _
  have hmy1 : dy - rec.height/2 ≤ max 0 (dy - rec.height/2) := le_max_right 0 _
  split_ifs with h1 h2 h3 h4 h5
  · -- early out: dx beyond the horizontal reach
    refine iff_of_false (by simp) ?_
    intro hle
    have hgt : radius < max 0 (dx - rec.width/2) := by linarith
    have hsq : radius^2 < (max 0 (dx - rec.width/2))^2 := by nlinarith
    nlinarith [sq_nonneg (max 0 (dy - rec.height/2))]
  · -- early out: dy beyond the vertical reach
    refine iff_of_false (by simp) ?_
    intro hle
    have hgt : radius < max 0 (dy - rec.height/2) := by linarith
    have hsq : radius^2 < (max 0 (dy - rec.height/2))^2 := by nlinarith
    nlinarith [sq_nonneg (max 0 (dx - rec.width/2))]
  · -- dx within the half-extent: collision
    refine iff_of_true rfl ?_
    have hx : max 0 (dx - rec.width/2) = 0 := max_eq_left (by linarith)
    have hy : max 0 (dy - rec.height/2) ≤ radius := max_le hr (by linarith)
    rw [hx]
    nlinarith
  · -- dy within the half-extent: collision
    refine iff_of_true rfl ?_
    have hy : max 0 (dy - rec.height/2) = 0 := max_eq_left (by linarith)
    have hx : max 0 (dx - rec.width/2) ≤ radius := max_le hr (by linarith)
    rw [hy]
    nlinarith
  · -- corner case, within the corner distance
    refine iff_of_true rfl ?_
    rw [max_eq_right (by linarith : (0:ℚ) ≤ dx - rec.width/2),
        max_eq_right (by linarith : (0:ℚ) ≤ dy - rec.height/2)]
    nlinarith
  · -- corner case, beyond the corner distance
    refine iff_of_false (by simp) ?_
    rw [max_eq_right (by linarith : (0:ℚ) ≤ dx - rec.width/2),
        max_eq_right (by linarith : (0:ℚ) ≤ dy - rec.height/2)]
    intro hle
    apply h5
    nlinarith

/-- Witness for C4: unit-radius circle at the origin against the rectangle
(0,0,2,2). -/
theorem C4_witness :
    RL_CheckCollisionCircleRec ⟨0, 0⟩ 1 ⟨0, 0, 2, 2⟩ = true ↔
      (max 0 (|(0:ℚ) - (cIntCast ((0:ℚ) + 2/2) : ℚ)| - 2/2))^2 +
      (max 0 (|(0:ℚ) - (cIntCast ((0:ℚ) + 2/2) : ℚ)| - 2/2))^2 ≤ (1:ℚ)^2 :=
  C4_circleRec_trunc_closestPoint ⟨0, 0⟩ 1 ⟨0, 0, 2, 2⟩ (by simp)

/-- Counterexample for C4 as stated: for the circle of radius 4/5 centered
at (7/5, 1/4) and the rectangle (0,0,1,1), the closest point of the
rectangle is (1, 1/4) at distance 2/5 from the circle center, so the
specified closest-point test reports a collision, but
RL_CheckCollisionCircleRec truncates the rectangle center (1/2, 1/2) to
(0, 0) and returns false from its first early-out comparison. -/
theorem C4_cex :
    RL_CheckCollisionCircleRec ⟨7/5, 1/4⟩ (4/5) ⟨0, 0, 1, 1⟩ = false ∧
    specCircleRecClosestPoint ⟨7/5, 1/4⟩ (4/5) ⟨0, 0, 1, 1⟩ = true := by
  constructor
  · unfold RL_CheckCollisionCircleRec cIntCast
    norm_num
    rw [abs_of_nonneg (show (0:ℚ) ≤ 7/5 by norm_num)]
    norm_num
  · unfold specCircleRecClosestPoint
    norm_num
    rw [abs_of_nonneg (show (0:ℚ) ≤ 9/10 by norm_num),
        abs_of_nonneg (show (0:ℚ) ≤ 1/4 by norm_num),
        show (9/10 : ℚ) - 1/2 = 2/5 by norm_num,
        show (1/4 : ℚ) - 1/2 = -(1/4) by norm_num,
        max_eq_right (show (0:ℚ) ≤ 2/5 by norm_num),
        max_eq_left (show -(1/4 : ℚ) ≤ 0 by norm_num)]
    norm_num

/-- Folding the boolean toggle of the even-odd rule over a list computes the
xor of the start value with the parity of the number of elements satisfying
the predicate. -/
theorem foldl_toggle_eq_xor {α : Type} (p : α → Bool) (l : List α) (acc : Bool) :
    l.foldl (fun collision e => if p e then !collision else collision) acc =
      xor acc (decide (Odd (l.countP p))) := by
  induction l generalizing acc with
  | nil => simp
  | cons a l ih =>
    have hparity : decide (Odd (l.countP p + 1)) = !decide (Odd (l.countP p)) := by
      by_cases hodd : Odd (l.countP p)
      · simp [hodd, Nat.odd_add_one, Nat.not_odd_iff_even]
      · simp [hodd, Nat.odd_add_one, Nat.not_odd_iff_even]
    rw [List.foldl_cons, ih]
    by_cases h : p a = true
    · simp only [h, if_true, List.countP_cons, if_pos h, hparity]
      cases acc <;> cases hb : decide (Odd (l.countP p)) <;> rfl
    · have h' : p a = false := Bool.not_eq_true _ |>.mp h
      simp [h', List.countP_cons]

/-- The zip of a list with its tail has one element fewer than the list. -/
theorem zip_tail_length {α : Type} (l : List α) : (l.zip l.tail).length = l.length - 1 := by
  cases l with
  | nil => simp
  | cons a l =>
    simp [List.length_zip]

/-- Element i of the zip of a list with its tail is the pair of consecutive
elements at positions i and i+1. -/
theorem zip_tail_getD {α : Type} (l : List α) (i : ℕ) (d : α) (h : i + 1 < l.length) :
    (l.zip l.tail).getD i (d, d) = (l.getD i d, l.getD (i+1) d) := by
  induction l generalizing i with
  | nil => simp at h
  | cons a l ih =>
    cases l with
    | nil => simp at h
    | cons b l2 =>
      cases i with
      | zero => rfl
      | succ j =>
        have hl : j + 1 < (b :: l2).length := by
          simp only [List.length_cons] at h ⊢
          omega
        have hstep := ih (i := j) hl
        simp only [List.tail_cons] at hstep
        simpa [List.zip_cons_cons, List.getD_cons_succ] using hstep

/-- C5: RL_CheckCollisionPointPoly returns false for a point count of at
most 2; for more points it computes the even-odd crossing test over exactly
the pointCount-1 edges between consecutive points (pairs (points[i],
points[i+1]) for i = 0 .. pointCount-2), without the wrap-around edge from
the last point back to the first. -/
theorem C5_pointPoly_evenOdd (point : RlVector2) (pts : List RlVector2) :
    (pts.length ≤ 2 → RL_CheckCollisionPointPoly point pts = false) ∧
    (2 < pts.length →
      ((RL_CheckCollisionPointPoly point pts = true ↔
          Odd ((pts.zip pts.tail).countP (fun e => polyEdgeCross point e.1 e.2))) ∧
        (pts.zip pts.tail).length = pts.length - 1 ∧
        ∀ d : RlVector2, ∀ i : ℕ, i + 1 < pts.length →
          (pts.zip pts.tail).getD i (d, d) = (pts.getD i d, pts.getD (i+1) d))) := by
  constructor
  · intro h
    unfold RL_CheckCollisionPointPoly
    rw [if_neg (by omega)]
  · intro h
    refine ⟨?_, zip_tail_length pts, fun d i hi => zip_tail_getD pts i d hi⟩
    unfold RL_CheckCollisionPointPoly
    rw [if_pos h, foldl_toggle_eq_xor]
    simp

/-- Witness for C5: a two-point list yields false, and the unit test point
(2,2) against the square (0,0),(4,0),(4,4),(0,4) exercises the even-odd
characterization. -/
theorem C5_witness :
    RL_CheckCollisionPointPoly ⟨2, 2⟩ [⟨0, 0⟩, ⟨1, 0⟩] = false ∧
    (RL_CheckCollisionPointPoly ⟨2, 2⟩ [⟨0, 0⟩, ⟨4, 0⟩, ⟨4, 4⟩, ⟨0, 4⟩] = true ↔
      Odd ((([⟨0, 0⟩, ⟨4, 0⟩, ⟨4, 4⟩, ⟨0, 4⟩] : List RlVector2).zip
              ([⟨0, 0⟩, ⟨4, 0⟩, ⟨4, 4⟩, ⟨0, 4⟩] : List RlVector2).tail).countP
            (fun e => polyEdgeCross ⟨2, 2⟩ e.1 e.2))) :=
  ⟨(C5_pointPoly_evenOdd ⟨2, 2⟩ [⟨0, 0⟩, ⟨1, 0⟩]).1 (by simp),
   ((C5_pointPoly_evenOdd ⟨2, 2⟩ [⟨0, 0⟩, ⟨4, 0⟩, ⟨4, 4⟩, ⟨0, 4⟩]).2 (by simp)).1⟩

/-- The normalized angle pair is ordered. -/
theorem normAngles_fst_le_snd (s e : ℚ) : (normAngles s e).1 ≤ (normAngles s e).2 := by
  unfold normAngles
  split_ifs with h
  · exact h.le
  · exact not_lt.mp h

/-- Normalizing an already ordered angle pair changes nothing. -/
theorem normAngles_of_le (s e : ℚ) (h : s ≤ e) : normAngles s e = (s, e) := by
  unfold normAngles
  rw [if_neg (not_lt.mpr h)]

/-- C1 (amended): whenever the two angles differ, the segment count used by
RL_DrawCircleSector is at least 1: the caller value is kept only when it is
at least minSegments, and both the derived count and the minSegments
fallback are positive. -/
theorem C1_sectorSegments_pos (radius startAngle endAngle : ℚ) (segments : ℤ)
    (h : startAngle ≠ endAngle) :
    1 ≤ drawCircleSectorSegments radius startAngle endAngle segments := by
  unfold drawCircleSectorSegments
  have hspan : 0 < (normAngles startAngle endAngle).2 - (normAngles startAngle endAngle).1 := by
    unfold normAngles
    split_ifs with hlt
    · simp only
      linarith
    · simp only
      have : startAngle < endAngle := lt_of_le_of_ne (not_lt.mp hlt) h
      linarith
  have hmin : 1 ≤ minSegmentsFor
      ((normAngles startAngle endAngle).2 - (normAngles startAngle endAngle).1) := by
    unfold minSegmentsFor
    exact Int.ceil_pos.mpr (by positivity)
  unfold sectorSegments
  dsimp only
  split_ifs with h1 h2
  · exact hmin
  · omega
  · omega

/-- Witness for C1: a 90 degree sector with 12 requested segments uses at
least one segment. -/
theorem C1_witness : 1 ≤ drawCircleSectorSegments 5 0 90 12 :=
  C1_sectorSegments_pos 5 0 90 12 (by simp)

/-- Counterexample for C1 as stated: for radius 1/2 and span 180 the error
tolerance derives th = acos(-1) = pi, so ceil(2*pi/th) = 2 and the segment
count used is trunc(180*2/360) = 1, which is below
minSegments = ceil(180/90) = 2 although the caller requested 0 < 2
segments. -/
theorem C1_cex :
    drawCircleSectorSegments (1/2) 0 180 0 = 1 ∧
    minSegmentsFor (180 - 0) = 2 ∧ (0 : ℤ) < 2 := by
  refine ⟨?_, ?_, by norm_num⟩
  · have hth : smoothCircleTh (1/2) = Real.pi := by
      unfold smoothCircleTh
      rw [show (2*(1 - (1/2 : ℝ)/(((1/2 : ℚ) : ℝ)))^2 - 1) = -1 by push_cast; norm_num]
      exact Real.arccos_neg_one
    have hderived : derivedSegments (1/2) 180 = 1 := by
      unfold derivedSegments realTrunc
      rw [hth, show 2*Real.pi/Real.pi = 2 by
        field_simp]
      rw [show (⌈(2:ℝ)⌉ : ℤ) = 2 by norm_num]
      rw [show ((180 : ℚ) : ℝ) * ((2:ℤ) : ℝ) / 360 = 1 by push_cast; norm_num]
      norm_num
    unfold drawCircleSectorSegments
    dsimp only
    rw [normAngles_of_le 0 180 (by norm_num)]
    dsimp only
    rw [show clampRadius (1/2 : ℚ) = 1/2 by unfold clampRadius; norm_num,
        show (180 : ℚ) - 0 = 180 by norm_num]
    unfold sectorSegments
    rw [hderived, show minSegmentsFor (180 : ℚ) = 2 by unfold minSegmentsFor; norm_num]
    norm_num
  · unfold minSegmentsFor
    norm_num

/-- The segment-count selection is idempotent: feeding the selected count
back in as the caller request selects the same count. -/
theorem sectorSegments_idem (radius span : ℚ) (segments : ℤ) :
    sectorSegments radius span (sectorSegments radius span segments) =
      sectorSegments radius span segments := by
  unfold sectorSegments
  split_ifs <;> omega

/-- C3: with a zero inner radius (the only value allowed by the claim
hypotheses innerRadius <= 0 and 0 <= innerRadius < outerRadius) and distinct
angles, RL_DrawRing emits exactly the event sequence of RL_DrawCircleSector
called with the same center, the outer radius, the same angles, the same
requested segments and the same color. -/
theorem C3_ring_degenerates_to_sector (center : RlVector2)
    (innerRadius outerRadius startAngle endAngle : ℚ) (segments : ℤ) (color : RlColor)
    (hi0 : innerRadius ≤ 0) (hi1 : 0 ≤ innerRadius) (hio : innerRadius < outerRadius)
    (hse : startAngle ≠ endAngle) :
    RL_DrawRing center innerRadius outerRadius startAngle endAngle segments color =
      RL_DrawCircleSector center outerRadius startAngle endAngle segments color := by
  have houter : 0 < outerRadius := lt_of_le_of_lt hi1 hio
  have hclamp : clampRadius outerRadius = outerRadius := by
    unfold clampRadius
    rw [if_neg (not_le.mpr houter)]
  have hnorm2 : normAngles (normAngles startAngle endAngle).1
      (normAngles startAngle endAngle).2 = normAngles startAngle endAngle := by
    rw [normAngles_of_le _ _ (normAngles_fst_le_snd startAngle endAngle)]
  unfold RL_DrawRing
  rw [if_neg hse, if_neg (not_lt.mpr hio.le)]
  dsimp only
  rw [if_pos hi0]
  unfold RL_DrawCircleSector
  rw [hclamp, hnorm2]
  dsimp only
  rw [sectorSegments_idem]

/-- Witness for C3: the spec scenario drawRing(center, 0, 5, 0, 360, 36)
equals drawCircleSector(center, 5, 0, 360, 36). -/
theorem C3_witness :
    RL_DrawRing ⟨0, 0⟩ 0 5 0 360 36 ⟨255, 255, 255, 255⟩ =
      RL_DrawCircleSector ⟨0, 0⟩ 5 0 360 36 ⟨255, 255, 255, 255⟩ :=
  C3_ring_degenerates_to_sector ⟨0, 0⟩ 0 5 0 360 36 ⟨255, 255, 255, 255⟩
    (by simp) (by simp) (by simp) (by simp)

/-- Element k of a mapped range list, for k in range. -/
theorem getD_range_map {α : Type} (f : ℕ → α) (n k : ℕ) (d : α) (h : k < n) :
    ((List.range n).map f).getD k d = f k := by
  rw [List.getD_eq_getElem?_getD, List.getElem?_map, List.getElem?_range h]
  rfl

/-- First chord of the flattening in the bezier endpoint scenario
P0 = (0,0), C = (5,10), P1 = (10,0). -/
theorem bezierScenarioChord1 :
    bezierQuadChord ⟨0, 0⟩ ⟨10, 0⟩ ⟨5, 10⟩ 1 = (5/12, 115/144) := by
  unfold bezierQuadChord bezierQuadPoint
  norm_num

/-- Last chord of the flattening in the bezier endpoint scenario. -/
theorem bezierScenarioChord24 :
    bezierQuadChord ⟨0, 0⟩ ⟨10, 0⟩ ⟨5, 10⟩ 24 = (5/12, -(115/144)) := by
  unfold bezierQuadChord bezierQuadPoint
  norm_num

/-- Rim scale of the first iteration in the bezier endpoint scenario. -/
theorem bezierScenarioSize1 :
    bezierQuadSize ⟨0, 0⟩ ⟨10, 0⟩ ⟨5, 10⟩ 2 1 = 1/Real.sqrt (16825/20736) := by
  unfold bezierQuadSize
  rw [bezierScenarioChord1]
  norm_num

/-- Rim scale of the last iteration in the bezier endpoint scenario. -/
theorem bezierScenarioSize24 :
    bezierQuadSize ⟨0, 0⟩ ⟨10, 0⟩ ⟨5, 10⟩ 2 24 = 1/Real.sqrt (16825/20736) := by
  unfold bezierQuadSize
  rw [bezierScenarioChord24]
  norm_num

/-- Square of the scenario rim scale. -/
theorem bezierScenarioSizeSq :
    (1/Real.sqrt (16825/20736)) * (1/Real.sqrt (16825/20736)) = 20736/16825 := by
  rw [div_mul_div_comm, one_mul, Real.mul_self_sqrt (by norm_num : (0:ℝ) ≤ 16825/20736)]
  norm_num

/-- Positivity of the scenario rim scale. -/
theorem bezierScenarioSizePos : 0 < 1/Real.sqrt (16825/20736) := by positivity

/-- Strip point 0 in the bezier endpoint scenario. -/
theorem bezierScenarioPt0 :
    bezierQuadStripPoint ⟨0, 0⟩ ⟨10, 0⟩ ⟨5, 10⟩ 2 0 =
      ((115/144 : ℝ) * (1/Real.sqrt (16825/20736)),
       -((5/12 : ℝ) * (1/Real.sqrt (16825/20736)))) := by
  unfold bezierQuadStripPoint
  norm_num [bezierScenarioChord1, bezierScenarioSize1]

/-- Strip point 1 in the bezier endpoint scenario. -/
theorem bezierScenarioPt1 :
    bezierQuadStripPoint ⟨0, 0⟩ ⟨10, 0⟩ ⟨5, 10⟩ 2 1 =
      (-((115/144 : ℝ) * (1/Real.sqrt (16825/20736))),
       (5/12 : ℝ) * (1/Real.sqrt (16825/20736))) := by
  unfold bezierQuadStripPoint
  norm_num [bezierScenarioChord1, bezierScenarioSize1]

/-- Strip point 48 in the bezier endpoint scenario. -/
theorem bezierScenarioPt48 :
    bezierQuadStripPoint ⟨0, 0⟩ ⟨10, 0⟩ ⟨5, 10⟩ 2 48 =
      (10 - (115/144 : ℝ) * (1/Real.sqrt (16825/20736)),
       -((5/12 : ℝ) * (1/Real.sqrt (16825/20736)))) := by
  unfold bezierQuadStripPoint
  norm_num [bezierQuadPoint, bezierScenarioChord24, bezierScenarioSize24]
  ring

/-- Strip point 49 in the bezier endpoint scenario. -/
theorem bezierScenarioPt49 :
    bezierQuadStripPoint ⟨0, 0⟩ ⟨10, 0⟩ ⟨5, 10⟩ 2 49 =
      (10 + (115/144 : ℝ) * (1/Real.sqrt (16825/20736)),
       (5/12 : ℝ) * (1/Real.sqrt (16825/20736))) := by
  unfold bezierQuadStripPoint
  norm_num [bezierQuadPoint, bezierScenarioChord24, bezierScenarioSize24]

/-- Counterexample for C7 as stated: in the scenario P0 = (0,0), C = (5,10),
P1 = (10,0), thickness 2, the first strip point is offset from (0,0)
perpendicular to the first chord of the flattening, which is not
perpendicular to the exact initial tangent direction C - P0 = (5,10): the
dot product of the first strip point with (5,10) is nonzero. -/
theorem C7_cex :
    ((RL_DrawLineBezierQuad ⟨0, 0⟩ ⟨10, 0⟩ ⟨5, 10⟩ 2).getD 0 (0, 0)).1 * 5 +
      ((RL_DrawLineBezierQuad ⟨0, 0⟩ ⟨10, 0⟩ ⟨5, 10⟩ 2).getD 0 (0, 0)).2 * 10 ≠ 0 := by
  unfold RL_DrawLineBezierQuad BEZIER_LINE_DIVISIONS
  rw [getD_range_map _ _ _ _ (by norm_num), bezierScenarioPt0]
  dsimp only
  intro hc
  have hpos := bezierScenarioSizePos
  nlinarith [hpos]

/-- C7 (amended): the quadratic bezier flattener always produces a point
strip of exactly 2*BEZIER_LINE_DIVISIONS + 2 = 50 points; for P0 = (0,0),
C = (5,10), P1 = (10,0) and thickness 2, the first point pair straddles
(0,0) (midpoint (0,0), each point at distance 1 = half the thickness, on
opposite sides) perpendicular to the first chord of the flattening (not to
the exact initial tangent direction), and the last point pair straddles
(10,0) the same way perpendicular to the last chord. -/
theorem C7_bezierQuad_strip (startPos endPos controlPos : RlVector2) (thick : ℚ) :
    (RL_DrawLineBezierQuad startPos endPos controlPos thick).length = 50 ∧
    (((RL_DrawLineBezierQuad ⟨0, 0⟩ ⟨10, 0⟩ ⟨5, 10⟩ 2).getD 0 (0, 0)).1 +
        ((RL_DrawLineBezierQuad ⟨0, 0⟩ ⟨10, 0⟩ ⟨5, 10⟩ 2).getD 1 (0, 0)).1 = 0 ∧
      ((RL_DrawLineBezierQuad ⟨0, 0⟩ ⟨10, 0⟩ ⟨5, 10⟩ 2).getD 0 (0, 0)).2 +
        ((RL_DrawLineBezierQuad ⟨0, 0⟩ ⟨10, 0⟩ ⟨5, 10⟩ 2).getD 1 (0, 0)).2 = 0) ∧
    (((RL_DrawLineBezierQuad ⟨0, 0⟩ ⟨10, 0⟩ ⟨5, 10⟩ 2).getD 0 (0, 0)).1 ^ 2 +
        ((RL_DrawLineBezierQuad ⟨0, 0⟩ ⟨10, 0⟩ ⟨5, 10⟩ 2).getD 0 (0, 0)).2 ^ 2 = 1 ∧
      ((RL_DrawLineBezierQuad ⟨0, 0⟩ ⟨10, 0⟩ ⟨5, 10⟩ 2).getD 1 (0, 0)).1 ^ 2 +
        ((RL_DrawLineBezierQuad ⟨0, 0⟩ ⟨10, 0⟩ ⟨5, 10⟩ 2).getD 1 (0, 0)).2 ^ 2 = 1) ∧
    (((RL_DrawLineBezierQuad ⟨0, 0⟩ ⟨10, 0⟩ ⟨5, 10⟩ 2).getD 0 (0, 0)).1 *
          ((bezierQuadChord ⟨0, 0⟩ ⟨10, 0⟩ ⟨5, 10⟩ 1).1 : ℝ) +
        ((RL_DrawLineBezierQuad ⟨0, 0⟩ ⟨10, 0⟩ ⟨5, 10⟩ 2).getD 0 (0, 0)).2 *
          ((bezierQuadChord ⟨0, 0⟩ ⟨10, 0⟩ ⟨5, 10⟩ 1).2 : ℝ) = 0) ∧
    (((RL_DrawLineBezierQuad ⟨0, 0⟩ ⟨10, 0⟩ ⟨5, 10⟩ 2).getD 48 (0, 0)).1 +
        ((RL_DrawLineBezierQuad ⟨0, 0⟩ ⟨10, 0⟩ ⟨5, 10⟩ 2).getD 49 (0, 0)).1 = 20 ∧
      ((RL_DrawLineBezierQuad ⟨0, 0⟩ ⟨10, 0⟩ ⟨5, 10⟩ 2).getD 48 (0, 0)).2 +
        ((RL_DrawLineBezierQuad ⟨0, 0⟩ ⟨10, 0⟩ ⟨5, 10⟩ 2).getD 49 (0, 0)).2 = 0) ∧
    ((((RL_DrawLineBezierQuad ⟨0, 0⟩ ⟨10, 0⟩ ⟨5, 10⟩ 2).getD 48 (0, 0)).1 - 10) ^ 2 +
        ((RL_DrawLineBezierQuad ⟨0, 0⟩ ⟨10, 0⟩ ⟨5, 10⟩ 2).getD 48 (0, 0)).2 ^ 2 = 1 ∧
      (((RL_DrawLineBezierQuad ⟨0, 0⟩ ⟨10, 0⟩ ⟨5, 10⟩ 2).getD 49 (0, 0)).1 - 10) ^ 2 +
        ((RL_DrawLineBezierQuad ⟨0, 0⟩ ⟨10, 0⟩ ⟨5, 10⟩ 2).getD 49 (0, 0)).2 ^ 2 = 1) ∧
    ((((RL_DrawLineBezierQuad ⟨0, 0⟩ ⟨10, 0⟩ ⟨5, 10⟩ 2).getD 48 (0, 0)).1 - 10) *
          ((bezierQuadChord ⟨0, 0⟩ ⟨10, 0⟩ ⟨5, 10⟩ 24).1 : ℝ) +
        ((RL_DrawLineBezierQuad ⟨0, 0⟩ ⟨10, 0⟩ ⟨5, 10⟩ 2).getD 48 (0, 0)).2 *
          ((bezierQuadChord ⟨0, 0⟩ ⟨10, 0⟩ ⟨5, 10⟩ 24).2 : ℝ) = 0) := by
  have h0 : (RL_DrawLineBezierQuad ⟨0, 0⟩ ⟨10, 0⟩ ⟨5, 10⟩ 2).getD 0 (0, 0) =
      ((115/144 : ℝ) * (1/Real.sqrt (16825/20736)),
       -((5/12 : ℝ) * (1/Real.sqrt (16825/20736)))) := by
    unfold RL_DrawLineBezierQuad BEZIER_LINE_DIVISIONS
    rw [getD_range_map _ _ _ _ (by norm_num), bezierScenarioPt0]
  have h1 : (RL_DrawLineBezierQuad ⟨0, 0⟩ ⟨10, 0⟩ ⟨5, 10⟩ 2).getD 1 (0, 0) =
      (-((115/144 : ℝ) * (1/Real.sqrt (16825/20736))),
       (5/12 : ℝ) * (1/Real.sqrt (16825/20736))) := by
    unfold RL_DrawLineBezierQuad BEZIER_LINE_DIVISIONS
    rw [getD_range_map _ _ _ _ (by norm_num), bezierScenarioPt1]
  have h48 : (RL_DrawLineBezierQuad ⟨0, 0⟩ ⟨10, 0⟩ ⟨5, 10⟩ 2).getD 48 (0, 0) =
      (10 - (115/144 : ℝ) * (1/Real.sqrt (16825/20736)),
       -((5/12 : ℝ) * (1/Real.sqrt (16825/20736)))) := by
    unfold RL_DrawLineBezierQuad BEZIER_LINE_DIVISIONS
    rw [getD_range_map _ _ _ _ (by norm_num), bezierScenarioPt48]
  have h49 : (RL_DrawLineBezierQuad ⟨0, 0⟩ ⟨10, 0⟩ ⟨5, 10⟩ 2).getD 49 (0, 0) =
      (10 + (115/144 : ℝ) * (1/Real.sqrt (16825/20736)),
       (5/12 : ℝ) * (1/Real.sqrt (16825/20736))) := by
    unfold RL_DrawLineBezierQuad BEZIER_LINE_DIVISIONS
    rw [getD_range_map _ _ _ _ (by norm_num), bezierScenarioPt49]
  refine ⟨by norm_num [RL_DrawLineBezierQuad, BEZIER_LINE_DIVISIONS], ?_, ?_, ?_, ?_, ?_, ?_⟩
  · rw [h0, h1]
    constructor <;> (dsimp only; ring)
  · rw [h0, h1]
    constructor <;>
      (dsimp only; linear_combination (16825/20736 : ℝ) * bezierScenarioSizeSq)
  · rw [h0, bezierScenarioChord1]
    dsimp only
    push_cast
    ring
  · rw [h48, h49]
    constructor <;> (dsimp only; ring)
  · rw [h48, h49]
    constructor <;>
      (dsimp only; linear_combination (16825/20736 : ℝ) * bezierScenarioSizeSq)
  · rw [h48, bezierScenarioChord24]
    dsimp only
    push_cast
    ring
